import Mathlib

/-!
Verification of the TcpTransfer repository's binary protocol codec
(src/protocol/TransferProtocol.cpp), the server-side chunked-transfer
session handling (src/main_server.cpp, handle_block_upload), and the
worker pool shutdown logic (include/thread/ThreadPool.h).

Bytes are modelled as `Nat` values below 256; `std::string` and
`std::vector<char>` both become `List Nat` of byte values.  All
multi-byte integers on the wire are read and written big-endian
(`htonl`/`ntohl` plus byte-wise insertion), modelled by `u32be` and
`readU32`.  Machine-integer truncation is explicit: casting a value to
`uint32_t` is `% 2^32`, `uint64_t` arithmetic is `% 2^64`.
-/

/-- Command codes from include/protocol/TransferProtocol.h lines 13-21. -/
def CMD_UPLOAD_REQUEST : Nat := 1

def CMD_UPLOAD_FINISH : Nat := 2

def CMD_UPLOAD_ACK : Nat := 3

def CMD_BLOCK_UPLOAD_REQUEST : Nat := 4

def CMD_BLOCK_QUERY : Nat := 5

def CMD_BLOCK_DATA : Nat := 6

def CMD_BLOCK_FINISH : Nat := 7

/-- Big-endian encoding of a `uint32_t` value, as produced by `htonl`
followed by byte-wise insertion into the buffer.  A wider `Nat` argument
is truncated exactly as the C++ cast to `uint32_t` would truncate it
(each emitted byte depends only on the argument modulo 2^32). -/
def u32be (n : Nat) : List Nat :=
  [n / 2 ^ 24 % 256, n / 2 ^ 16 % 256, n / 2 ^ 8 % 256, n % 256]

/-- Big-endian read of a `uint32_t` at byte offset `off`, as performed by
`ntohl(*(uint32_t*)(data.data() + off))`.  The embedding is total
(out-of-range bytes read as 0); every decoder below performs this read
only at offsets it has bounds-checked, except where the C++ source
itself omits the check - those spots are modelled explicitly with the
`Unpack.oob` result before `readU32` is ever consulted. -/
def readU32 (data : List Nat) (off : Nat) : Nat :=
  data.getD off 0 * 2 ^ 24 + data.getD (off + 1) 0 * 2 ^ 16 +
    data.getD (off + 2) 0 * 2 ^ 8 + data.getD (off + 3) 0

/-- Result of a decoder.  `fail` is the C++ `return false` path;
`oob` marks a dereference the C++ code performs without first checking
that the buffer is long enough (an out-of-bounds read of the underlying
vector); `ok` carries the decoded fields. -/
inductive Unpack (α : Type) where
  | ok (a : α)
  | fail
  | oob
deriving DecidableEq

/-- TransferProtocol.cpp lines 54-63: `pack_upload_finish`.  Returns the
empty buffer when the md5 string is not exactly 32 bytes, otherwise the
command byte followed by the 32 md5 bytes. -/
def pack_upload_finish (md5 : List Nat) : List Nat :=
  if md5.length ≠ 32 then [] else CMD_UPLOAD_FINISH :: md5

/-- TransferProtocol.cpp lines 79-100: `pack_upload_ack`.
Command byte, status byte (0 = success, 1 = failure), 4-byte big-endian
message length, message bytes.  (The C++ guards the final insert with
`msg_len > 0`; inserting an empty range is identical.) -/
def pack_upload_ack (success : Bool) (msg : List Nat) : List Nat :=
  CMD_UPLOAD_ACK :: (if success then 0 else 1) :: (u32be msg.length ++ msg)

/-- TransferProtocol.cpp lines 123-134: `pack_block_query`.
Command byte, 4-byte big-endian file_id length, file_id bytes. -/
def pack_block_query (file_id : List Nat) : List Nat :=
  CMD_BLOCK_QUERY :: (u32be file_id.length ++ file_id)

/-- TransferProtocol.cpp lines 137-154: `pack_block_data`.
Command byte, then the raw `file_id` bytes with NO length prefix
(line 144 inserts `file_id` directly), then 4-byte big-endian block
index, 4-byte big-endian payload length, payload bytes. -/
def pack_block_data (file_id : List Nat) (block_idx : Nat) (block_data : List Nat) : List Nat :=
  CMD_BLOCK_DATA :: (file_id ++ u32be block_idx ++ u32be block_data.length ++ block_data)

/-- TransferProtocol.cpp lines 157-168: `pack_block_finish`.
Command byte, raw `file_id` bytes with NO length prefix (line 163),
4-byte big-endian total block count. -/
def pack_block_finish (file_id : List Nat) (total_blocks : Nat) : List Nat :=
  CMD_BLOCK_FINISH :: (file_id ++ u32be total_blocks)

/-- TransferProtocol.cpp lines 307-316: `pack_block_upload_ack`.
Command byte, status byte, 4-byte big-endian file_id length, file_id. -/
def pack_block_upload_ack (success : Bool) (file_id : List Nat) : List Nat :=
  CMD_UPLOAD_ACK :: (if success then 0 else 1) :: (u32be file_id.length ++ file_id)

/-- TransferProtocol.cpp lines 318-330: `pack_block_query_ack`.
Command byte, status byte, 4-byte big-endian count, then each missing
index as 4 big-endian bytes. -/
def pack_block_query_ack (success : Bool) (missing_blocks : List Nat) : List Nat :=
  CMD_UPLOAD_ACK :: (if success then 0 else 1) ::
    (u32be missing_blocks.length ++ missing_blocks.flatMap u32be)

/-- UTF-8 bytes of the separator string `"，MD5="` (fullwidth comma
U+FF0C = EF BC 8C, then `M` `D` `5` `=`) that
`pack_block_finish_ack` (TransferProtocol.cpp line 339) concatenates
between the human-readable message and the md5 hex string. -/
def mdSep : List Nat := [239, 188, 140, 77, 68, 53, 61]

/-- TransferProtocol.cpp lines 337-341: `pack_block_finish_ack`.
Builds `full_msg = msg + "，MD5=" + md5` and delegates to
`pack_upload_ack`: the md5 travels INSIDE the single length-prefixed
message field; no separate fixed-width md5 field is emitted. -/
def pack_block_finish_ack (success : Bool) (msg md5 : List Nat) : List Nat :=
  pack_upload_ack success (msg ++ mdSep ++ md5)

/-- `true` iff `pat` occurs at the very start of `l`
(byte-wise comparison, as `std::string::find` would match there). -/
def matchesAt : List Nat → List Nat → Bool
  | [], _ => true
  | _ :: _, [] => false
  | p :: ps, x :: xs => p == x && matchesAt ps xs

/-- Index of the first occurrence of `pat` in `l`, or `none`:
the embedding of `std::string::find` (used on line 232 of
TransferProtocol.cpp to locate `"MD5="` inside the message). -/
def findSub (pat : List Nat) : List Nat → Option Nat
  | [] => if matchesAt pat [] then some 0 else none
  | x :: xs =>
      if matchesAt pat (x :: xs) then some 0
      else (findSub pat xs).map (· + 1)

/-- TransferProtocol.cpp lines 261-268: `unpack_block_query`.
Checks `data.size() < 4` before reading the id length, then checks the
id fits, then extracts it.  No command byte is examined (the dispatcher
in main_server.cpp consumed it before calling this). -/
def unpack_block_query (data : List Nat) : Unpack (List Nat) :=
  if data.length < 4 then .fail
  else
    let id_len := readU32 data 0
    if data.length < 4 + id_len then .fail
    else .ok ((data.drop 4).take id_len)

/-- TransferProtocol.cpp lines 270-293: `unpack_block_data`.
Line 277 dereferences `*(uint32_t*)(data.data())` BEFORE any length
check: on a buffer shorter than 4 bytes that is an out-of-bounds read,
modelled by `.oob`.  After that read the remaining declared lengths are
checked before use.  No command byte is examined. -/
def unpack_block_data (data : List Nat) : Unpack (List Nat × Nat × List Nat) :=
  if data.length < 4 then .oob
  else
    let id_len := readU32 data 0
    if data.length < 4 + id_len + 4 + 4 then .fail
    else
      let file_id := (data.drop 4).take id_len
      let block_idx := readU32 data (4 + id_len)
      let data_len := readU32 data (4 + id_len + 4)
      if data.length < 4 + id_len + 8 + data_len then .fail
      else .ok (file_id, block_idx, (data.drop (4 + id_len + 8)).take data_len)

/-- TransferProtocol.cpp lines 295-305: `unpack_block_finish`.
Line 298 dereferences the first 4 bytes before any length check
(out-of-bounds on buffers shorter than 4 bytes, modelled by `.oob`),
then checks that the id and the trailing 4-byte count fit.
No command byte is examined. -/
def unpack_block_finish (data : List Nat) : Unpack (List Nat × Nat) :=
  if data.length < 4 then .oob
  else
    let id_len := readU32 data 0
    if data.length < 4 + id_len + 4 then .fail
    else .ok ((data.drop 4).take id_len, readU32 data (4 + id_len))

/-- TransferProtocol.cpp lines 217-237: `unpack_block_finish_ack`
(client side).  Validates minimum length and the `UPLOAD_ACK` command
byte, reads the status and the length-prefixed message, then recovers
the md5 by SEARCHING the message text for the substring `"MD5="` and
taking everything after it (lines 231-235); if the marker is absent the
out-parameter keeps its initial empty value. -/
def unpack_block_finish_ack (data : List Nat) : Unpack (Bool × List Nat × List Nat) :=
  if data.length < 6 then .fail
  else if data.getD 0 0 ≠ CMD_UPLOAD_ACK then .fail
  else
    let msg_len := readU32 data 2
    if data.length < 6 + msg_len then .fail
    else
      let msg := (data.drop 6).take msg_len
      let md5 :=
        match findSub [77, 68, 53, 61] msg with
        | some i => msg.drop (i + 4)
        | none => []
      .ok (data.getD 1 0 == 0, msg, md5)

/-!
Server-side chunked-transfer state (main_server.cpp).
`BlockFileStatus` embeds the struct of lines 33-44; the `std::set` of
received indices becomes a `Finset Nat`, and the per-block temp files
(`temp_dir + "/block_" + i`) become the `store` map - a block file for
index `i` exists exactly when `i ∈ received_blocks` (put_block writes it
on receipt, finish deletes it after reassembly). -/

structure BlockFileStatus where
  filename : List Nat
  total_size : Nat
  block_size : Nat
  total_blocks : Nat
  received_blocks : Finset Nat
  store : Nat → List Nat
  is_finished : Bool

/-- main_server.cpp line 209 (and identically main_client.cpp line 181):
`uint32_t total_blocks = (total_size + block_size - 1) / block_size;`.
`total_size` is `uint64_t`, `block_size` is promoted to `uint64_t`, so
the sum wraps modulo 2^64, and storing the quotient into a `uint32_t`
truncates modulo 2^32.  (For `block_size = 0` the C++ divides by zero -
undefined behaviour; the embedding is only ever applied with the
divisor's value, Lean's `x / 0 = 0` standing in for that UB case.) -/
def computed_total_blocks (total_size block_size : Nat) : Nat :=
  ((total_size + block_size - 1) % 2 ^ 64 / block_size) % 2 ^ 32

/-- The mathematical ceiling of `a / b` (for `b > 0`), written without
any fixed-width truncation: `a / b` rounded up. -/
def ceil_div (a b : Nat) : Nat :=
  a / b + (if a % b = 0 then 0 else 1)

/-- main_server.cpp lines 197-226, the `BLOCK_UPLOAD_REQUEST` case after
`unpack_block_upload_request` has produced the fields: generates a
`file_id` (from MD5 of name+size+timestamp - MD5 and the clock are
external, so the generated id is a parameter here), creates the temp
directory, computes `total_blocks`, unconditionally registers the new
session in the global `g_block_files` map, and replies with a success
ack carrying the `file_id`.  No check of `total_size` or `block_size`
is performed anywhere in this path. -/
def handle_block_init (fid : List Nat) (filename : List Nat)
    (total_size block_size : Nat)
    (registry : List (List Nat × BlockFileStatus)) :
    List (List Nat × BlockFileStatus) × List Nat :=
  let st : BlockFileStatus :=
    { filename := filename
      total_size := total_size
      block_size := block_size
      total_blocks := computed_total_blocks total_size block_size
      received_blocks := ∅
      store := fun _ => []
      is_finished := false }
  ((fid, st) :: registry, pack_block_upload_ack true fid)

/-- main_server.cpp lines 254-263: the missing-block computation inside
the `BLOCK_QUERY` case - every index in `[0, total_blocks)` not present
in `received_blocks`, in increasing order. -/
def missing_blocks (s : BlockFileStatus) : List Nat :=
  (List.range s.total_blocks).filter fun i => decide (i ∉ s.received_blocks)

/-- A response sent back by the connection handler: either a failure
`pack_upload_ack` carrying the quoted message from the source (after
which the handler returns), or the success `pack_block_query_ack`
carrying the missing indices. -/
inductive ConnResponse where
  | errAck (msg : String)
  | queryAck (missing : List Nat)
deriving DecidableEq

/-- main_server.cpp lines 229-270, the `BLOCK_QUERY` case.
`local_file_id` and `local_status` embed the CONNECTION-LOCAL variables
`file_id` and `file_status` declared at lines 146-147; they are set only
by a `BLOCK_UPLOAD_REQUEST` processed earlier on the same connection.
The handler first rejects when the locals are unset (lines 231-236),
then decodes the queried id and rejects unless it equals the local one
(line 247); the global registry is never consulted by the presented id. -/
def handle_block_query (local_file_id : List Nat)
    (local_status : Option BlockFileStatus) (body : List Nat) : ConnResponse :=
  if local_file_id.length = 0 ∨ local_status.isNone then
    .errAck "未初始化上传"
  else
    match local_status with
    | none => .errAck "未初始化上传"
    | some st =>
        match unpack_block_query body with
        | .ok qid =>
            if qid ≠ local_file_id then .errAck "file_id不匹配"
            else .queryAck (missing_blocks st)
        | _ => .errAck "file_id不匹配"

/-- main_server.cpp lines 308-324: the session state after a block is
accepted - the payload is written to the block file (`std::ios::trunc`
overwrites any previous content, lines 309-318) and the index is
inserted into `received_blocks` (line 323).  No payload-length or
finished-state check exists in this path. -/
def put_state (s : BlockFileStatus) (idx : Nat) (payload : List Nat) : BlockFileStatus :=
  { s with
      store := Function.update s.store idx payload
      received_blocks := insert idx s.received_blocks }

/-- The `BLOCK_DATA` case proper: `none` is the rejection of an index at
or beyond `total_blocks` (lines 301-306); otherwise the session becomes
`put_state s idx payload`. -/
def put_block (s : BlockFileStatus) (idx : Nat) (payload : List Nat) :
    Option BlockFileStatus :=
  if idx < s.total_blocks then some (put_state s idx payload) else none

/-- Concatenation of the block files `0 .. claimed-1` in index order,
as the loop at main_server.cpp lines 383-398 produces it, provided every
one of those block files exists (i.e. was received); if any is missing
the loop deletes the partial artifact and fails, yielding `none`. -/
def reassemble (s : BlockFileStatus) (claimed : Nat) : Option (List Nat) :=
  if (List.range claimed).all (fun i => decide (i ∈ s.received_blocks)) then
    some ((List.range claimed).foldr (fun i acc => s.store i ++ acc) [])
  else none

/-- Outcome of the `BLOCK_FINISH` case: a failure ack with the quoted
message, or success carrying the reassembled artifact (whose MD5, an
external hash of exactly these bytes, fills the final ack). -/
inductive FinishResult where
  | errAck (msg : String)
  | okAck (artifact : List Nat)
deriving DecidableEq

/-- main_server.cpp lines 360-416, the `BLOCK_FINISH` case at session
level, `claimed` being the `total_blocks` field decoded from the
client's frame.  Line 364 compares `received_blocks.size()` with the
CLAIMED count - the session's own `total_blocks` is never consulted -
and on equality reassembles blocks `0 .. claimed-1`. -/
def handle_block_finish (s : BlockFileStatus) (claimed : Nat) : FinishResult :=
  if s.received_blocks.card ≠ claimed then .errAck "存在未接收的块"
  else
    match reassemble s claimed with
    | some content => .okAck content
    | none => .errAck "读取块文件失败"

/-!
Worker pool shutdown (include/thread/ThreadPool.h).
A task is abstracted by a `Nat` identifier.  After `stop()` has set
`m_stop = true` (line 70), `submit` rejects every new task (line 52), so
the queue only shrinks; the wait predicate `m_stop || !tasks.empty()`
(line 100) is then trivially true, and `worker_loop` reduces to the
step below: exit when the queue is empty (line 103), otherwise pop the
head and run it (lines 108-114).  The first component of the result is
the final queue, the second the list of tasks actually executed, in
execution order. -/

def workerLoopStopped : List Nat → List Nat → List Nat × List Nat
  | [], executed => ([], executed)
  | t :: ts, executed => workerLoopStopped ts (executed ++ [t])

/-!
Concrete data used by the closed theorems below. -/

/-- The bytes of the 16-character file id `"0123456789abcdef"` - the
shape `generate_file_id` (main_server.cpp lines 52-58) actually returns:
16 ASCII hex characters of an MD5 prefix. -/
def fid16 : List Nat := [48, 49, 50, 51, 52, 53, 54, 55, 56, 57, 97, 98, 99, 100, 101, 102]

/-- A 32-byte ASCII md5 string (32 times `'a'`). -/
def md5demo : List Nat := List.replicate 32 97

/-- A registered session mid-transfer: 10-byte file, 4-byte blocks,
3 total blocks, block 0 already received (spec scenario B/C). -/
def sessionB : BlockFileStatus :=
  { filename := [97]
    total_size := 10
    block_size := 4
    total_blocks := 3
    received_blocks := {0}
    store := Function.update (fun _ => []) 0 [10, 11, 12, 13]
    is_finished := false }

/-- A session for a 5-byte file in 2-byte blocks (`total_blocks = 3`)
of which only blocks 0 and 1 have been received (payloads `[10, 11]`
and `[12, 13]`). -/
def sessionIncomplete : BlockFileStatus :=
  { filename := [97]
    total_size := 5
    block_size := 2
    total_blocks := 3
    received_blocks := {0, 1}
    store := Function.update (Function.update (fun _ => []) 0 [10, 11]) 1 [12, 13]
    is_finished := false }

/-!
Theorems settling the claims.
-/

/-- Auxiliary: for a positive divisor, the C-style rounding-up quotient
`(a + b - 1) / b` is exactly the mathematical ceiling of `a / b`. -/
theorem add_pred_div (a b : Nat) (hb : 0 < b) : (a + b - 1) / b = ceil_div a b := by
  have hd := Nat.div_add_mod a b
  have hr : a % b < b := Nat.mod_lt _ hb
  unfold ceil_div
  by_cases h0 : a % b = 0
  · have ha : a + b - 1 = b * (a / b) + (b - 1) := by omega
    have hz : (b - 1) / b = 0 := Nat.div_eq_of_lt (by omega)
    rw [ha, Nat.mul_add_div hb, hz]
    simp [h0]
  · have hmul : b * (a / b + 1) = b * (a / b) + b := by ring
    have ha : a + b - 1 = b * (a / b + 1) + (a % b - 1) := by omega
    have hz : (a % b - 1) / b = 0 := Nat.div_eq_of_lt (by omega)
    rw [ha, Nat.mul_add_div hb, hz]
    simp [h0]

/-- Claim C1: decode is claimed to invert encode for every frame type,
in particular for `block_data` and `block_finish`.  On the code this
fails: `pack_block_data` writes the file_id RAW (no length prefix) while
`unpack_block_data` reads a 4-byte length prefix first, so the decoder
misreads the leading file_id bytes (`"0123"` = 0x30313233 = 808530483)
as a gigantic length and rejects the very bytes the encoder produced;
likewise for `pack_block_finish`/`unpack_block_finish`.  The theorem
evaluates the code at such an input, both as the server consumes it
(command byte stripped by the dispatcher, `List.drop 1`) and on the full
encoder output. -/
theorem c1_block_frame_roundtrip_fails_on_code :
    unpack_block_data (List.drop 1 (pack_block_data fid16 0 [])) = Unpack.fail
    ∧ unpack_block_finish (List.drop 1 (pack_block_finish fid16 3)) = Unpack.fail
    ∧ unpack_block_data (pack_block_data fid16 0 []) = Unpack.fail
    ∧ unpack_block_finish (pack_block_finish fid16 3) = Unpack.fail := by
  decide

/-- Claim C2: any connection presenting the correct `file_id` is claimed
to be able to drive the session, so that after a disconnect a NEW
connection's `query(file_id)` returns the remaining missing indices.
On the code the `BLOCK_QUERY` handler consults only the CONNECTION-LOCAL
`file_id`/`file_status` variables (set exclusively by a
`BLOCK_UPLOAD_REQUEST` on the same connection) and never looks the
presented id up in the global registry: a fresh connection's query for
the registered id of `sessionB` (missing blocks `[1, 2]`) is answered
with the failure ack `"未初始化上传"` and the connection is closed,
instead of the claimed `[1, 2]`. -/
theorem c2_fresh_connection_query_rejected :
    handle_block_query [] none (List.drop 1 (pack_block_query fid16))
      = ConnResponse.errAck "未初始化上传"
    ∧ missing_blocks sessionB = [1, 2] := by
  decide

/-- Claim C3: `finish` is claimed to fail with `BlockCountMismatch`
whenever the claimed total differs from the session's `total_blocks`,
to fail with `IncompleteTransfer` whenever fewer blocks were received,
and never to reassemble from fewer than the session's `total_blocks`
blocks.  On the code the only check (main_server.cpp line 364) compares
`received_blocks.size()` against the CLAIMED total: for
`sessionIncomplete` (session total 3, only blocks 0 and 1 received) a
finish claiming 2 blocks passes the check and reassembles a truncated
artifact from 2 of the 3 blocks. -/
theorem c3_finish_accepts_mismatched_claimed_total :
    handle_block_finish sessionIncomplete 2 = FinishResult.okAck [10, 11, 12, 13]
    ∧ sessionIncomplete.received_blocks.card < sessionIncomplete.total_blocks
    ∧ (2 : Nat) ≠ sessionIncomplete.total_blocks := by
  decide

/-- Claim C4 counterexample: the claim says every decoder verifies the
minimum length for the fixed-size prefix BEFORE any field is read and
never performs an out-of-bounds read, but `unpack_block_data` and
`unpack_block_finish` dereference the first 4 bytes unconditionally:
on the empty buffer that dereference is out of bounds. -/
theorem c4_counterexample :
    unpack_block_data ([] : List Nat) = Unpack.oob
    ∧ unpack_block_finish ([] : List Nat) = Unpack.oob := by
  decide

/-- Claim C4 as amended: `unpack_block_query` does check the buffer
before every read and never reads out of bounds; `unpack_block_data` and
`unpack_block_finish` read the 4-byte id length unchecked (out of bounds
exactly on buffers shorter than 4 bytes) but validate every declared
length against the remaining buffer after that, so on buffers of at
least 4 bytes they never read out of bounds and any failing check yields
a clean decode failure.  (No server-side block decoder inspects a
command byte at all - the dispatcher consumes it before decoding.) -/
theorem c4_decoders_bounds_amended (data : List Nat) :
    unpack_block_query data ≠ Unpack.oob
    ∧ (4 ≤ data.length → unpack_block_data data ≠ Unpack.oob)
    ∧ (4 ≤ data.length → unpack_block_finish data ≠ Unpack.oob) := by
  refine ⟨?_, ?_, ?_⟩
  · simp only [unpack_block_query]
    split
    · simp
    · split <;> simp
  · intro h
    simp only [unpack_block_data]
    split
    · omega
    · split
      · simp
      · split <;> simp
  · intro h
    simp only [unpack_block_finish]
    split
    · omega
    · split <;> simp

/-- Witness for the amended C4 theorem at the concrete 4-byte buffer
`[0, 0, 0, 0]`. -/
theorem c4_decoders_bounds_amended_witness :
    unpack_block_query [0, 0, 0, 0] ≠ Unpack.oob
    ∧ unpack_block_data [0, 0, 0, 0] ≠ Unpack.oob
    ∧ unpack_block_finish [0, 0, 0, 0] ≠ Unpack.oob :=
  ⟨(c4_decoders_bounds_amended [0, 0, 0, 0]).1,
   (c4_decoders_bounds_amended [0, 0, 0, 0]).2.1 (by decide),
   (c4_decoders_bounds_amended [0, 0, 0, 0]).2.2 (by decide)⟩

/-- Claim C5: `init` is claimed to reject `total_size == 0` (and
`block_size == 0`), registering nothing and returning no file_id.  On
the code the `BLOCK_UPLOAD_REQUEST` handler performs no such check:
for `total_size = 0, block_size = 4` it registers a session (with
`total_blocks = 0`) under the generated file_id and replies with a
success ack carrying that file_id.  (For `block_size = 0` the same line
209 divides by zero - undefined behaviour - instead of rejecting.) -/
theorem c5_init_accepts_zero_total_size :
    (handle_block_init fid16 [97] 0 4 []).1.length = 1
    ∧ ((handle_block_init fid16 [97] 0 4 []).1.head?.map fun p => p.1) = some fid16
    ∧ ((handle_block_init fid16 [97] 0 4 []).1.head?.map fun p => p.2.total_blocks) = some 0
    ∧ (handle_block_init fid16 [97] 0 4 []).2 = pack_block_upload_ack true fid16 := by
  decide

/-- Claim C6: re-submitting an already-received in-range block index is
idempotent - the stored payload is overwritten, the received set (hence
its size and `query`'s missing list) is unchanged, and repeating the
same put yields the identical session state, so any subsequent `finish`
reassembles the identical artifact (hence the identical content hash). -/
theorem c6_put_block_idempotent (s : BlockFileStatus) (i : Nat) (p : List Nat)
    (hi : i ∈ s.received_blocks) (hlt : i < s.total_blocks) :
    put_block s i p = some (put_state s i p)
    ∧ (put_state s i p).store i = p
    ∧ (put_state s i p).received_blocks = s.received_blocks
    ∧ (put_state s i p).received_blocks.card = s.received_blocks.card
    ∧ missing_blocks (put_state s i p) = missing_blocks s
    ∧ put_block (put_state s i p) i p = some (put_state s i p) := by
  have hrec : insert i s.received_blocks = s.received_blocks :=
    Finset.insert_eq_self.mpr hi
  refine ⟨?_, ?_, ?_, ?_, ?_, ?_⟩
  · simp [put_block, hlt]
  · simp [put_state, Function.update_same]
  · simp [put_state, hrec]
  · simp [put_state, hrec]
  · simp [missing_blocks, put_state, hrec]
  · simp [put_block, put_state, hlt, Function.update_idem, Finset.insert_idem]

/-- Witness for C6 at `sessionB` (block 0 already received) with the
same 4-byte payload resubmitted. -/
theorem c6_put_block_idempotent_witness :
    put_block sessionB 0 [10, 11, 12, 13] = some (put_state sessionB 0 [10, 11, 12, 13])
    ∧ (put_state sessionB 0 [10, 11, 12, 13]).store 0 = [10, 11, 12, 13]
    ∧ (put_state sessionB 0 [10, 11, 12, 13]).received_blocks = sessionB.received_blocks
    ∧ (put_state sessionB 0 [10, 11, 12, 13]).received_blocks.card
        = sessionB.received_blocks.card
    ∧ missing_blocks (put_state sessionB 0 [10, 11, 12, 13]) = missing_blocks sessionB
    ∧ put_block (put_state sessionB 0 [10, 11, 12, 13]) 0 [10, 11, 12, 13]
        = some (put_state sessionB 0 [10, 11, 12, 13]) :=
  c6_put_block_idempotent sessionB 0 [10, 11, 12, 13] (by decide) (by decide)

/-- Claim C7: the `BlockFinishAck` frame is claimed to carry the md5 as
a fixed 32-byte field in its own position after the length-prefixed
message, the decoder recovering it from that field.  On the code no
such field exists: for message `"ok"` (2 bytes) and a 32-byte md5 the
message-length field at offset 2 reads 41 = 2 + 7 + 32 - the md5 and
the `"，MD5="` separator are INSIDE the single length-prefixed message -
and the whole frame is 6 + 41 bytes, leaving no trailing md5 field;
the decoder recovers the md5 by searching the message text for the
substring `"MD5="`. -/
theorem c7_md5_embedded_in_message :
    readU32 (pack_block_finish_ack true [111, 107] md5demo) 2 = 41
    ∧ (pack_block_finish_ack true [111, 107] md5demo).length = 6 + 41
    ∧ unpack_block_finish_ack (pack_block_finish_ack true [111, 107] md5demo)
        = Unpack.ok (true, [111, 107] ++ mdSep ++ md5demo, md5demo) := by
  decide

/-- Claim C8 counterexample: over the full `uint64_t`/`uint32_t` ranges
the computed block count is claimed to equal the mathematical ceiling,
but `(total_size + block_size - 1)` wraps modulo 2^64 (first conjunct:
`total_size = 2^64 - 1, block_size = 4` yields 0 instead of 2^62) and
the quotient is truncated into a `uint32_t` (second conjunct:
`total_size = 2^33, block_size = 1` yields 0 instead of 2^33). -/
theorem c8_counterexample :
    (computed_total_blocks (2 ^ 64 - 1) 4 = 0 ∧ ceil_div (2 ^ 64 - 1) 4 = 2 ^ 62)
    ∧ (computed_total_blocks (2 ^ 33) 1 = 0 ∧ ceil_div (2 ^ 33) 1 = 2 ^ 33) := by
  decide

/-- Claim C8 as amended: the computed block count equals the
mathematical ceiling of `total_size / block_size` for all positive
inputs such that `total_size + block_size - 1` does not overflow a
`uint64_t` and the ceiling itself fits in a `uint32_t`. -/
theorem c8_total_blocks_is_ceil_amended (ts bs : Nat) (h1 : 0 < ts) (h2 : 0 < bs)
    (h3 : ts + bs - 1 < 2 ^ 64) (h4 : ceil_div ts bs < 2 ^ 32) :
    computed_total_blocks ts bs = ceil_div ts bs := by
  unfold computed_total_blocks
  rw [Nat.mod_eq_of_lt h3, add_pred_div ts bs h2, Nat.mod_eq_of_lt h4]

/-- Witness for the amended C8 theorem at `total_size = 10`,
`block_size = 4` (ceiling 3). -/
theorem c8_total_blocks_is_ceil_amended_witness :
    computed_total_blocks 10 4 = ceil_div 10 4 :=
  c8_total_blocks_is_ceil_amended 10 4 (by decide) (by decide) (by decide) (by decide)

/-- Claim C9 counterexample: tasks queued but unstarted when `stop()`
runs are claimed to be discarded without being executed; but a worker
whose queue still holds task 42 after `m_stop` is set pops and RUNS it
(the loop exits only once the queue is empty), so the executed list is
`[42]`, not empty. -/
theorem c9_counterexample :
    workerLoopStopped [42] [] = ([], [42])
    ∧ (workerLoopStopped [42] []).2 ≠ [] := by
  decide

/-- Claim C9 as amended: after `stop()` sets the stopping flag, the
workers execute EVERY task still queued, in FIFO order, and exit only
when the queue is empty; nothing queued before the stop is discarded
(the final queue-clearing in `stop()` runs after the joins, on an
already-empty queue). -/
theorem c9_stop_drains_queue (q ex : List Nat) :
    workerLoopStopped q ex = ([], ex ++ q) := by
  induction q generalizing ex with
  | nil => simp [workerLoopStopped]
  | cons t ts ih => simp [workerLoopStopped, ih]

/-- Claim C10: `pack_upload_finish` returns the empty buffer for every
md5 whose length is not exactly 32 (silent empty frame, no loud
failure), and for every 32-byte md5 returns exactly the 33-byte frame
of the command byte followed by the 32 md5 bytes. -/
theorem c10_pack_upload_finish_shape (md5 : List Nat) :
    (md5.length ≠ 32 → pack_upload_finish md5 = [])
    ∧ (md5.length = 32 →
        pack_upload_finish md5 = CMD_UPLOAD_FINISH :: md5
        ∧ (pack_upload_finish md5).length = 33) := by
  constructor
  · intro h
    simp [pack_upload_finish, h]
  · intro h
    refine ⟨?_, ?_⟩ <;> simp [pack_upload_finish, h]

/-- Witness for C10 at a 32-byte md5 and at a 1-byte non-md5. -/
theorem c10_pack_upload_finish_shape_witness :
    pack_upload_finish md5demo = CMD_UPLOAD_FINISH :: md5demo
    ∧ (pack_upload_finish md5demo).length = 33
    ∧ pack_upload_finish [97] = [] :=
  ⟨((c10_pack_upload_finish_shape md5demo).2 (by decide)).1,
   ((c10_pack_upload_finish_shape md5demo).2 (by decide)).2,
   (c10_pack_upload_finish_shape [97]).1 (by decide)⟩
